import Mathlib

/-!
Verification development for the local light-transport core of the SORT
renderer: RGB spectra, Fresnel models (src/bsdf/fresnel.h), the material
shading-graph node variants (src/material/bxdf_node.cpp), the area light
(src/light/area.cpp) and the Whitted direct-lighting estimator
(src/integrator/whittedrt.cpp).  Machine floats are embedded as exact
rationals; external collaborators (Shape geometry, scene intersection,
disk loading) are explicit parameters or recorded effect traces.
-/

/-- Spectrum models the renderer's RGB spectrum class (spectrum.h is not part
of the analysed sources; the spec describes spectra as per-channel color
values, so arithmetic is componentwise with scalars broadcast to all three
channels, exactly as the C++ operators behave in the analysed call sites). -/
structure Spectrum where
  r : ℚ
  g : ℚ
  b : ℚ
deriving DecidableEq, Repr

instance : Add Spectrum := ⟨fun a c => ⟨a.r + c.r, a.g + c.g, a.b + c.b⟩⟩

instance : Sub Spectrum := ⟨fun a c => ⟨a.r - c.r, a.g - c.g, a.b - c.b⟩⟩

instance : Mul Spectrum := ⟨fun a c => ⟨a.r * c.r, a.g * c.g, a.b * c.b⟩⟩

instance : Div Spectrum := ⟨fun a c => ⟨a.r / c.r, a.g / c.g, a.b / c.b⟩⟩

/-- Broadcast of a scalar to a gray spectrum (the C++ Spectrum(float) constructor). -/
def Spectrum.ofRat (x : ℚ) : Spectrum := ⟨x, x, x⟩

instance : Zero Spectrum := ⟨Spectrum.ofRat 0⟩

instance : One Spectrum := ⟨Spectrum.ofRat 1⟩

instance : HMul ℚ Spectrum Spectrum := ⟨fun x s => ⟨x * s.r, x * s.g, x * s.b⟩⟩

instance : HMul Spectrum ℚ Spectrum := ⟨fun s x => ⟨s.r * x, s.g * x, s.b * x⟩⟩

instance : HAdd Spectrum ℚ Spectrum := ⟨fun s x => ⟨s.r + x, s.g + x, s.b + x⟩⟩

instance : HDiv Spectrum ℚ Spectrum := ⟨fun s x => ⟨s.r / x, s.g / x, s.b / x⟩⟩

/-- Spectrum.IsBlack is true exactly when every channel is zero. -/
def Spectrum.IsBlack (s : Spectrum) : Bool :=
  decide (s.r = 0) && decide (s.g = 0) && decide (s.b = 0)

/-- FresnelConductor (src/bsdf/fresnel.h lines 29-57): conductor Fresnel model
parameterized by eta and k spectra. -/
structure FresnelConductor where
  eta : Spectrum
  k : Spectrum
deriving DecidableEq

/-- FresnelConductor::Evaluate (src/bsdf/fresnel.h lines 40-52), transcribed
statement by statement; the absolute value of the incident cosine is taken
with the source's conditional, the exitant cosine is not read. -/
def FresnelConductor.Evaluate (f : FresnelConductor) (cosi coso : ℚ) : Spectrum :=
  let abs_cos : ℚ := if cosi > 0 then cosi else -cosi
  let sq_cos : ℚ := abs_cos * abs_cos
  let t : Spectrum := (2 : ℚ) * f.eta * abs_cos
  let tmp_f : Spectrum := f.eta * f.eta + f.k * f.k
  let tmp : Spectrum := tmp_f * sq_cos
  let Rparl2 : Spectrum := (tmp - t + (1 : ℚ)) / (tmp + t + (1 : ℚ))
  let Rperp2 : Spectrum := (tmp_f - t + sq_cos) / (tmp_f + t + sq_cos)
  (Rparl2 + Rperp2) * ((1 : ℚ)/2)

/-- FresnelDielectric (src/bsdf/fresnel.h lines 59-88): dielectric Fresnel
model parameterized by two scalar indices of refraction. -/
structure FresnelDielectric where
  eta_t : ℚ
  eta_i : ℚ
deriving DecidableEq

/-- FresnelDielectric::Evaluate (src/bsdf/fresnel.h lines 70-83), transcribed
statement by statement; both cosines pass through the source's
conditional absolute value, the scalar result is broadcast to a spectrum. -/
def FresnelDielectric.Evaluate (f : FresnelDielectric) (cosi coso : ℚ) : Spectrum :=
  let cos_i : ℚ := if cosi > 0 then cosi else -cosi
  let cos_o : ℚ := if coso > 0 then coso else -coso
  let t0 : ℚ := f.eta_t * cos_i
  let t1 : ℚ := f.eta_i * cos_o
  let t2 : ℚ := f.eta_i * cos_i
  let t3 : ℚ := f.eta_t * cos_o
  let Rparl : ℚ := (t0 - t1) / (t0 + t1)
  let Rparp : ℚ := (t2 - t3) / (t2 + t3)
  Spectrum.ofRat ((Rparl * Rparl + Rparp * Rparp) * ((1 : ℚ)/2))

/-- FresnelNo::Evaluate (src/bsdf/fresnel.h lines 20-27): the unity Fresnel
term always returns 1. -/
def FresnelNo.Evaluate (cosi coso : ℚ) : Spectrum := 1

/-- MaterialPropertyValue models the four-component property value resolved
from a shading-graph slot (material_node.h is not part of the analysed
sources; the spec describes slot values as scalar/color constants). -/
structure MaterialPropertyValue where
  x : ℚ
  y : ℚ
  z : ℚ
  w : ℚ
deriving DecidableEq, Repr

/-- Modelled from the spec: MaterialPropertyValue::ToSpectrum (material_node.h
is not under the analysed sources) converts a resolved property value to a
color spectrum, taking the three color components. -/
def MaterialPropertyValue.ToSpectrum (v : MaterialPropertyValue) : Spectrum :=
  ⟨v.x, v.y, v.z⟩

/-- MerlData models the measured-data BXDF object (Merl or FourierBxdf) that a
measured-data node owns as a member: its mutable contribution weight
`m_weight`, and which file `LoadData` has loaded into its table (the table
contents themselves are opaque external data). -/
structure MerlData where
  m_weight : Spectrum
  loaded : Option String
deriving DecidableEq, Repr

/-- MaterialNode models the shading-graph node variants of
src/material/bxdf_node.cpp.  A property slot is a pair of the stored constant
value and the optional connected upstream node (the string keys of `m_props`
carry no semantics in the analysed functions and are dropped).
`constant` stands for a CONSTANT-typed value node and `generic` for any other
non-BXDF node kind carrying its capability bitmask, both modelled from the
spec's data model (their classes are not under the analysed sources).
`merl` and `fourier` carry their filename slot, their owned measured-data
BXDF member and the `m_post_processed` flag. -/
inductive MaterialNode : Type where
  | constant (value : MaterialPropertyValue)
  | generic (nodeType : Nat)
      (props : List (MaterialPropertyValue × Option MaterialNode))
  | lambert (baseColor : MaterialPropertyValue × Option MaterialNode)
  | orenNayar (baseColor : MaterialPropertyValue × Option MaterialNode)
      (roughness : MaterialPropertyValue × Option MaterialNode)
  | merl (merlfile : String × Option MaterialNode) (merlBxdf : MerlData)
      (m_post_processed : Bool)
  | fourier (fourierBxdfFile : String × Option MaterialNode)
      (fourierBxdf : MerlData) (m_post_processed : Bool)
  | layered (bxdfs : List (MaterialPropertyValue × Option MaterialNode))
      (weights : List (MaterialPropertyValue × Option MaterialNode))

/-- A property slot: stored constant value plus optional connection. -/
abbrev NodeSlot := MaterialPropertyValue × Option MaterialNode

/-- Modelled from the spec: the MAT_NODE_CONSTANT capability bit of the node
type bitmask (material_node.h is not under the analysed sources; only bit
disjointness from MAT_NODE_BXDF is used by the analysed code). -/
def MAT_NODE_CONSTANT : Nat := 1

/-- Modelled from the spec: the MAT_NODE_BXDF capability bit of the node type
bitmask (material_node.h is not under the analysed sources). -/
def MAT_NODE_BXDF : Nat := 2

/-- Modelled from the spec: getNodeType returns the capability bitmask of the
node; every reflectance-producing node kind carries the BXDF bit, constant
value nodes carry the CONSTANT bit. -/
def MaterialNode.getNodeType : MaterialNode → Nat
  | .constant _ => MAT_NODE_CONSTANT
  | .generic ty _ => ty
  | .lambert _ => MAT_NODE_BXDF
  | .orenNayar _ _ => MAT_NODE_BXDF
  | .merl _ _ _ => MAT_NODE_BXDF
  | .fourier _ _ _ => MAT_NODE_BXDF
  | .layered _ _ => MAT_NODE_BXDF

/-- Modelled from the spec: GetNodeValue (material_node.cpp is not under the
analysed sources) — a CONSTANT node outputs its stored value; a reflectance
node has no well-defined scalar/color output, modelled as zero. -/
def MaterialNode.GetNodeValue : MaterialNode → MaterialPropertyValue
  | .constant v => v
  | _ => ⟨0, 0, 0, 0⟩

/-- Modelled from the spec: MaterialNodeProperty::GetPropertyValue
(material_node.cpp is not under the analysed sources) — resolving a slot
returns the stored constant if unconnected, otherwise the connected node's
output. -/
def getPropertyValue : NodeSlot → MaterialPropertyValue
  | (v, none) => v
  | (_, some n) => n.GetNodeValue

/-- BxdfStorage tracks whether a reflectance term appended to a Bsdf was
freshly allocated for this shading evaluation or points into storage owned by
a graph node. -/
inductive BxdfStorage where
  | fresh
  | nodeOwned
deriving DecidableEq, Repr

/-- BxdfKind identifies the reflectance term appended to a Bsdf together with
its construction parameters. -/
inductive BxdfKind where
  | lambertBxdf (baseColor : Spectrum)
  | orenNayarBxdf (baseColor : Spectrum) (roughness : ℚ)
  | merlBxdf
  | fourierBxdf
deriving DecidableEq, Repr

/-- A weighted reflectance term held by a Bsdf. -/
structure BsdfEntry where
  kind : BxdfKind
  m_weight : Spectrum
  storage : BxdfStorage
deriving DecidableEq, Repr

/-- Bsdf: the ordered collection of weighted reflectance terms at one shading
point. -/
structure Bsdf where
  bxdfs : List BsdfEntry
deriving DecidableEq, Repr

/-- Bsdf::AddBxdf appends one reflectance term. -/
def Bsdf.AddBxdf (b : Bsdf) (e : BsdfEntry) : Bsdf := ⟨b.bxdfs ++ [e]⟩

mutual

/-- UpdateBSDF of the node variants (src/material/bxdf_node.cpp).
LambertNode (lines 91-96) and OrenNayarNode (lines 146-151) allocate a fresh
term from resolved properties and set its weight to the incoming weight.
MerlNode (lines 103-107) and FourierBxdfNode (lines 124-128) write the
incoming weight into the node-owned measured BXDF member and append that
member itself (node-owned storage).  LayeredBxdfNode (lines 64-68) iterates
its slot pairs and calls each bxdf slot with the resolved weight-slot value
alone — the incoming weight parameter is not read by the source.  Node
mutation is returned as the updated node. -/
def MaterialNode.UpdateBSDF : MaterialNode → Bsdf → Spectrum → MaterialNode × Bsdf
  | .constant v, bsdf, _ => (.constant v, bsdf)
  | .generic ty props, bsdf, _ => (.generic ty props, bsdf)
  | .lambert baseColor, bsdf, weight =>
      (.lambert baseColor,
       bsdf.AddBxdf ⟨.lambertBxdf (getPropertyValue baseColor).ToSpectrum, weight, .fresh⟩)
  | .orenNayar baseColor roughness, bsdf, weight =>
      (.orenNayar baseColor roughness,
       bsdf.AddBxdf ⟨.orenNayarBxdf (getPropertyValue baseColor).ToSpectrum
          (getPropertyValue roughness).x, weight, .fresh⟩)
  | .merl merlfile mb pp, bsdf, weight =>
      (.merl merlfile { mb with m_weight := weight } pp,
       bsdf.AddBxdf ⟨.merlBxdf, weight, .nodeOwned⟩)
  | .fourier file fb pp, bsdf, weight =>
      (.fourier file { fb with m_weight := weight } pp,
       bsdf.AddBxdf ⟨.fourierBxdf, weight, .nodeOwned⟩)
  | .layered bxdfs weights, bsdf, _ =>
      let res := layeredUpdateLoop bxdfs weights bsdf
      (.layered res.1 weights, res.2)

/-- The loop body of LayeredBxdfNode::UpdateBSDF (lines 66-67): for each index
in range, `bxdfs[i].UpdateBsdf(bsdf, weights[i].GetPropertyValue(bsdf).ToSpectrum())`. -/
def layeredUpdateLoop : List NodeSlot → List NodeSlot → Bsdf → List NodeSlot × Bsdf
  | [], _, bsdf => ([], bsdf)
  | b :: bs, [], bsdf => (b :: bs, bsdf)
  | b :: bs, w :: ws, bsdf =>
      let res := slotUpdateBsdf b bsdf (getPropertyValue w).ToSpectrum
      let rest := layeredUpdateLoop bs ws res.2
      (res.1 :: rest.1, rest.2)

/-- Modelled from the spec: MaterialNodeProperty::UpdateBsdf
(material_node.cpp is not under the analysed sources) — if a sub-node is
connected the call is forwarded to it with the given weight; empty slots
contribute nothing. -/
def slotUpdateBsdf : NodeSlot → Bsdf → Spectrum → NodeSlot × Bsdf
  | (v, none), bsdf, _ => ((v, none), bsdf)
  | (v, some n), bsdf, weight =>
      let res := n.UpdateBSDF bsdf weight
      ((v, some res.1), res.2)

end

/-- The bxdf-slot loop of LayeredBxdfNode::CheckValidation (lines 43-50): a
connected node lacking the BXDF capability bit fails validation. -/
def layeredBxdfSlotsValid : List NodeSlot → Bool
  | [] => true
  | (_, none) :: rest => layeredBxdfSlotsValid rest
  | (_, some n) :: rest =>
      if n.getNodeType &&& MAT_NODE_BXDF == 0 then false
      else layeredBxdfSlotsValid rest

/-- The weight-slot loop of LayeredBxdfNode::CheckValidation (lines 52-59): a
connected node lacking the CONSTANT capability bit fails validation. -/
def layeredWeightSlotsValid : List NodeSlot → Bool
  | [] => true
  | (_, none) :: rest => layeredWeightSlotsValid rest
  | (_, some n) :: rest =>
      if n.getNodeType &&& MAT_NODE_CONSTANT == 0 then false
      else layeredWeightSlotsValid rest

/-- The property loop of BxdfNode::CheckValidation (lines 73-82): a connected
node carrying the BXDF capability bit fails validation. -/
def bxdfPropsValid : List (Option MaterialNode) → Bool
  | [] => true
  | none :: rest => bxdfPropsValid rest
  | some n :: rest =>
      if n.getNodeType &&& MAT_NODE_BXDF != 0 then false
      else bxdfPropsValid rest

mutual

/-- CheckValidation of the node variants.  LayeredBxdfNode (lines 41-62)
checks its bxdf slots (BXDF required) and weight slots (CONSTANT required)
then defers to MaterialNode::CheckValidation; every other BXDF node uses
BxdfNode::CheckValidation (lines 71-84): no property slot may connect a
BXDF-typed node, then defer to the base.  The base
MaterialNode::CheckValidation is modelled from the spec (material_node.cpp is
not under the analysed sources): validation composes, recursively validating
every connected upstream node. -/
def MaterialNode.CheckValidation : MaterialNode → Bool
  | .constant _ => true
  | .generic _ props => checkSlotsValidation props
  | .lambert baseColor =>
      bxdfPropsValid [baseColor.2] && checkSlotValidation baseColor.2
  | .orenNayar baseColor roughness =>
      bxdfPropsValid [baseColor.2, roughness.2] &&
      (checkSlotValidation baseColor.2 && checkSlotValidation roughness.2)
  | .merl merlfile mb pp => bxdfPropsValid [merlfile.2] && checkSlotValidation merlfile.2
  | .fourier file fb pp => bxdfPropsValid [file.2] && checkSlotValidation file.2
  | .layered bxdfs weights =>
      layeredBxdfSlotsValid bxdfs && layeredWeightSlotsValid weights &&
      (checkSlotsValidation bxdfs && checkSlotsValidation weights)

/-- Modelled from the spec: base validation over a slot list — every connected
upstream node must itself validate. -/
def checkSlotsValidation : List NodeSlot → Bool
  | [] => true
  | (_, c) :: rest => checkSlotValidation c && checkSlotsValidation rest

/-- Modelled from the spec: base validation of one slot connection. -/
def checkSlotValidation : Option MaterialNode → Bool
  | none => true
  | some n => n.CheckValidation

end

/-- PostProcess of the measured-data nodes.  MerlNode::PostProcess (lines
110-117) and FourierBxdfNode::PostProcess (lines 131-138): return immediately
when `m_post_processed` is set; otherwise load the file into the owned table
when the filename is non-empty.  Neither function sets `m_post_processed`.
The disk loads performed are returned as an effect trace of file names.
PostProcess of the other node kinds is outside the analysed claims and is the
identity with an empty trace. -/
def MaterialNode.PostProcess : MaterialNode → MaterialNode × List String
  | .merl (file, conn) mb pp =>
      if pp then (.merl (file, conn) mb pp, [])
      else if file = "" then (.merl (file, conn) mb pp, [])
      else (.merl (file, conn) { mb with loaded := some file } pp, [file])
  | .fourier (file, conn) fb pp =>
      if pp then (.fourier (file, conn) fb pp, [])
      else if file = "" then (.fourier (file, conn) fb pp, [])
      else (.fourier (file, conn) { fb with loaded := some file } pp, [file])
  | n => (n, [])

/-- Two successive PostProcess calls on the same node, concatenating the disk
load traces. -/
def postProcessTwice (n : MaterialNode) : MaterialNode × List String :=
  let first := n.PostProcess
  let second := first.1.PostProcess
  (second.1, first.2 ++ second.2)

/-- Three-component vector over exact rationals. -/
structure Vec3 where
  x : ℚ
  y : ℚ
  z : ℚ
deriving DecidableEq, Repr

instance : Neg Vec3 := ⟨fun v => ⟨-v.x, -v.y, -v.z⟩⟩

instance : Sub Vec3 := ⟨fun a c => ⟨a.x - c.x, a.y - c.y, a.z - c.z⟩⟩

/-- Modelled from the spec: Dot (vector math lives outside the analysed
sources) — the Euclidean dot product, the cosine between unit vectors. -/
def Dot (a c : Vec3) : ℚ := a.x * c.x + a.y * c.y + a.z * c.z

/-- Modelled from the spec: SatDot (vector math lives outside the analysed
sources) — the dot product clamped to be nonnegative, max(0, cos). -/
def SatDot (a c : Vec3) : ℚ := max (Dot a c) 0

/-- AreaLight state relevant to the analysed functions: the constant emitted
intensity and the owned Shape's surface area (the Shape is an external
geometric collaborator; its surface sampling is passed in explicitly where
needed). -/
structure AreaLight where
  intensity : Spectrum
  shapeSurfaceArea : ℚ
deriving DecidableEq, Repr

/-- Modelled from the spec: Spectrum::GetIntensity (spectrum.h is not under
the analysed sources); the spec's Power contract multiplies the emitted
intensity spectrum itself by surface area and 2π, so GetIntensity is the
intensity spectrum. -/
def Spectrum.GetIntensity (s : Spectrum) : Spectrum := s

/-- AreaLight::Power (src/light/area.cpp lines 97-101):
`shape->SurfaceArea() * intensity.GetIntensity() * TWO_PI`.  The constant
TWO_PI (the float approximation of 2π, defined outside the analysed sources)
is passed in as `twoPi`. -/
def AreaLight.Power (twoPi : ℚ) (l : AreaLight) : Spectrum :=
  l.shapeSurfaceArea * l.intensity.GetIntensity * twoPi

/-- The spec's stated Power formula: the spectrum 2π × A × I. -/
def specAreaLightPower (twoPi : ℚ) (l : AreaLight) : Spectrum :=
  twoPi * (l.shapeSurfaceArea * l.intensity)

/-- A shadow/emission ray segment as built by the Ray constructor calls in
src/light/area.cpp: origin, direction and the [fmin, fmax] clip range. -/
structure ShadowRay where
  ori : Vec3
  dir : Vec3
  fmin : ℚ
  fmax : ℚ
deriving DecidableEq, Repr

/-- The outcome of `shape->sample_l(ls, intersect, dirToLight, normal, pdfW)`:
the sampled light point, the direction toward it, the outgoing light normal
and the solid-angle pdf the Shape reports.  The Shape is an external
collaborator, so its outcome is a parameter. -/
structure ShapeSampleL where
  ps : Vec3
  dirToLight : Vec3
  normal : Vec3
  pdfW : ℚ
deriving DecidableEq, Repr

/-- The output slots of the incident-direction AreaLight::sample_l, holding
whatever values the caller's variables had before the call; pointer-valued
outputs that the function does not write retain these prior values.
`dirToLight` is a reference parameter and is always written. -/
structure SampleLOutputs where
  dirToLight : Vec3
  distance : ℚ
  pdfW : ℚ
  emissionPdf : ℚ
  cosAtLight : ℚ
  visRay : ShadowRay
deriving DecidableEq, Repr

/-- AreaLight::sample_l, incident variant (src/light/area.cpp lines 35-67),
transcribed statement by statement.  `wantDistance`/`wantPdfW`/
`wantEmissionPdf`/`wantCosAtLight` model whether the corresponding out
pointers are non-null; `Length` is the Euclidean length function of the
external vector math; `uniformHemispherePdf` is the external
UniformHemispherePdf() constant.  After delegating point sampling to the
Shape (which writes `dirToLight`, and `pdfW` when requested) the function
returns zero radiance as soon as the requested pdf is exactly zero, before
any of the remaining outputs or the visibility ray are written. -/
def AreaLight.sample_l (l : AreaLight) (uniformHemispherePdf : ℚ)
    (Length : Vec3 → ℚ) (shapeRes : ShapeSampleL) (intersectP : Vec3)
    (wantDistance wantPdfW wantEmissionPdf wantCosAtLight : Bool)
    (outs : SampleLOutputs) : Spectrum × SampleLOutputs :=
  let dirToLight := shapeRes.dirToLight
  let outs1 := { outs with dirToLight := dirToLight }
  let outs2 := if wantPdfW then { outs1 with pdfW := shapeRes.pdfW } else outs1
  let dlt := shapeRes.ps - intersectP
  let len := Length dlt
  if wantPdfW = true ∧ shapeRes.pdfW = 0 then (0, outs2)
  else
    let outs3 :=
      if wantCosAtLight then { outs2 with cosAtLight := Dot (-dirToLight) shapeRes.normal }
      else outs2
    let outs4 := if wantDistance then { outs3 with distance := len } else outs3
    let outs5 :=
      if wantEmissionPdf then
        { outs4 with emissionPdf := uniformHemispherePdf / l.shapeSurfaceArea }
      else outs4
    let delta : ℚ := 1/100
    let outs6 := { outs5 with visRay := ⟨intersectP, dirToLight, delta, len - delta⟩ }
    (l.intensity, outs6)

/-- The per-light outcome of one shading evaluation in the Whitted estimator:
whether the light is delta-distributed, the radiance/direction/pdf its
sample_l call produces toward the hit point, and whether the visibility test
for that sample passes.  Lights and the intersection service are external
collaborators of the integrator. -/
structure LightSampleData where
  isDelta : Bool
  ld : Spectrum
  lightDir : Vec3
  pdf : ℚ
  visible : Bool

/-- The hit information the estimator uses: the shading normal and the
bidirectional reflectance `bsdf->f` of the Bsdf built from the hit
primitive's material. -/
structure HitInfo where
  normal : Vec3
  f : Vec3 → Vec3 → Spectrum

/-- One scene evaluation context for a given ray: the intersection outcome,
the environment radiance `scene.Le(r)` for that ray, and the per-light sample
outcomes. -/
structure SceneModel where
  hit : Option HitInfo
  envLe : Spectrum
  lights : List LightSampleData

/-- A ray as the estimator reads it: recursion depth and direction. -/
structure RayModel where
  m_Depth : Nat
  m_Dir : Vec3

/-- WhittedRT::Li (src/integrator/whittedrt.cpp lines 30-76), transcribed
statement by statement: depth cutoff returning zero, miss returning the
scene's environment radiance, then one pass over the lights in which only
delta lights are evaluated — skipping a light when its sampled radiance is
black or the reflectance is black, and accumulating
`ld * f * SatDot(lightDir, normal) / pdf` when the visibility test passes. -/
def WhittedRT.Li (max_recursive_depth : Nat) (scene : SceneModel)
    (r : RayModel) : Spectrum :=
  if r.m_Depth > max_recursive_depth then 0
  else
    match scene.hit with
    | none => scene.envLe
    | some ip =>
        scene.lights.foldl (fun t light =>
          if light.isDelta then
            if light.ld.IsBlack then t
            else
              let f := ip.f (-r.m_Dir) light.lightDir
              if f.IsBlack then t
              else if light.visible then
                t + light.ld * f * SatDot light.lightDir ip.normal / light.pdf
              else t
          else t) 0

/-- The contribution of one light as the claim describes it: included exactly
when the light is delta-distributed, its sampled radiance is nonzero, the
reflectance is nonzero and the visibility test passes; zero otherwise (in
particular zero for every non-delta light). -/
def deltaLightContribution (rdir : Vec3) (ip : HitInfo)
    (light : LightSampleData) : Spectrum :=
  if light.isDelta = true ∧ light.ld.IsBlack = false ∧
      (ip.f (-rdir) light.lightDir).IsBlack = false ∧ light.visible = true then
    light.ld * ip.f (-rdir) light.lightDir * SatDot light.lightDir ip.normal / light.pdf
  else 0

/-- Sum of a list of spectra. -/
def spectrumSum : List Spectrum → Spectrum
  | [] => 0
  | s :: rest => s + spectrumSum rest

/-- Whether a slot connection is to a BXDF-typed node. -/
def slotConnectsBxdf : Option MaterialNode → Bool
  | none => false
  | some n => n.getNodeType &&& MAT_NODE_BXDF != 0

/-- Whether a slot connection is to a node that is not BXDF-typed. -/
def slotConnectsNonBxdf : Option MaterialNode → Bool
  | none => false
  | some n => n.getNodeType &&& MAT_NODE_BXDF == 0

/-- Whether a slot connection is to a node that is not CONSTANT-typed. -/
def slotConnectsNonConstant : Option MaterialNode → Bool
  | none => false
  | some n => n.getNodeType &&& MAT_NODE_CONSTANT == 0

/-- The node-type acceptance violations described by the validation claim: a
LayeredBxdfNode with a non-BXDF node on some Bxdf slot or a non-CONSTANT node
on some Weight slot, or any other BXDF node kind with a BXDF-typed node
connected to one of its property slots. -/
def violatesSlotRule : MaterialNode → Bool
  | .constant _ => false
  | .generic _ _ => false
  | .lambert baseColor => slotConnectsBxdf baseColor.2
  | .orenNayar baseColor roughness =>
      slotConnectsBxdf baseColor.2 || slotConnectsBxdf roughness.2
  | .merl merlfile _ _ => slotConnectsBxdf merlfile.2
  | .fourier file _ _ => slotConnectsBxdf file.2
  | .layered bxdfs weights =>
      bxdfs.any (fun s => slotConnectsNonBxdf s.2) ||
      weights.any (fun s => slotConnectsNonConstant s.2)

/-- Projection: the weight stored in a measured-data node's owned BXDF member
(zero for node kinds that own no measured BXDF). -/
def MaterialNode.ownedBxdfWeight : MaterialNode → Spectrum
  | .merl _ mb _ => mb.m_weight
  | .fourier _ fb _ => fb.m_weight
  | _ => 0

/-- Projection: a measured-data node's `m_post_processed` flag (false for the
other node kinds). -/
def MaterialNode.postProcessedFlag : MaterialNode → Bool
  | .merl _ _ pp => pp
  | .fourier _ _ pp => pp
  | _ => false

/-- A zero property value used for unpopulated slot constants. -/
def zeroMPV : MaterialPropertyValue := ⟨0, 0, 0, 0⟩

/-- Scenario: a Lambertian sub-node with constant base color (1,1,1). -/
def lambertNodeC1 : MaterialNode := .lambert (⟨1, 1, 1, 0⟩, none)

/-- Scenario: a CONSTANT weight node resolving to w = (1/2,1/2,1/2). -/
def weightNodeC1 : MaterialNode := .constant ⟨1/2, 1/2, 1/2, 0⟩

/-- Scenario: a LayeredBxdfNode with one populated (sub-node, weight) pair. -/
def layeredNodeC1 : MaterialNode :=
  .layered [(zeroMPV, some lambertNodeC1)] [(zeroMPV, some weightNodeC1)]

/-- Scenario: the top-level weight W = (2,2,2) handed to the layered node. -/
def topWeightC1 : Spectrum := ⟨2, 2, 2⟩

/-- Scenario: the resolved weight-slot value w = (1/2,1/2,1/2). -/
def subWeightC1 : Spectrum := ⟨1/2, 1/2, 1/2⟩

/-- Scenario: a MerlNode whose loaded table is in place and whose owned merl
BXDF currently carries weight zero. -/
def merlNodeC2 : MaterialNode :=
  .merl ("measured.brdf", none) ⟨0, some "measured.brdf"⟩ true

/-- Scenario: a FourierBxdfNode in the same state. -/
def fourierNodeC2 : MaterialNode :=
  .fourier ("fourier.bsdf", none) ⟨0, some "fourier.bsdf"⟩ true

/-- Scenario: a freshly constructed MerlNode with a non-empty filename and the
processed flag still false. -/
def merlNodeC3 : MaterialNode := .merl ("brdf.bin", none) ⟨0, none⟩ false

/-- Scenario: a freshly constructed FourierBxdfNode in the same state. -/
def fourierNodeC3 : MaterialNode := .fourier ("fourier.bsdf", none) ⟨0, none⟩ false

/-- Scenario: a LayeredBxdfNode whose first Bxdf slot connects a CONSTANT
(non-BXDF) node — a wiring the validation rule must reject. -/
def violatingNodeC5 : MaterialNode :=
  .layered [(zeroMPV, some (.constant ⟨1, 0, 0, 0⟩))] []

/-- Scenario: hit point for the estimator — normal (0,0,1), constant gray
reflectance 1/4. -/
def hitC6 : HitInfo := ⟨⟨0, 0, 1⟩, fun _ _ => Spectrum.ofRat (1/4)⟩

/-- Scenario: a delta light sample with nonzero radiance, pdf 1/2, visible. -/
def deltaLightC6 : LightSampleData := ⟨true, ⟨1, 1, 1⟩, ⟨0, 0, 1⟩, 1/2, true⟩

/-- Scenario: a non-delta (area) light sample with nonzero radiance. -/
def areaLightSampleC6 : LightSampleData := ⟨false, ⟨5, 5, 5⟩, ⟨0, 1, 0⟩, 1/3, true⟩

/-- Scenario: a scene evaluation with one delta and one area light. -/
def sceneC6 : SceneModel := ⟨some hitC6, 0, [deltaLightC6, areaLightSampleC6]⟩

/-- Scenario: a primary ray within the recursion limit. -/
def rayC6 : RayModel := ⟨0, ⟨0, 0, -1⟩⟩

/-- Scenario: a ray one past the maximum recursive depth 2. -/
def rayC7 : RayModel := ⟨3, ⟨0, 0, 1⟩⟩

/-- Scenario: a non-trivial scene (environment radiance 7, one delta light)
that must not influence the cut-off result. -/
def sceneC7 : SceneModel :=
  ⟨some hitC6, ⟨7, 7, 7⟩, [⟨true, ⟨1, 1, 1⟩, ⟨0, 0, 1⟩, 1, true⟩]⟩

/-- Scenario: a Shape sample whose reported solid-angle pdf is exactly 0. -/
def shapeResC8 : ShapeSampleL := ⟨⟨1, 2, 3⟩, ⟨0, 0, 1⟩, ⟨0, 0, -1⟩, 0⟩

/-- Scenario: prior values of the caller's output variables, all distinctive. -/
def priorOutsC8 : SampleLOutputs :=
  ⟨⟨9, 9, 9⟩, 42, 7, 13, 5, ⟨⟨0, 0, 0⟩, ⟨1, 0, 0⟩, 2, 3⟩⟩

/-- Scenario: an area light of surface area 4 and unit intensity. -/
def areaLightC8 : AreaLight := ⟨⟨1, 1, 1⟩, 4⟩

/-- Helper: unfolding componentwise spectrum addition. -/
theorem Spectrum.add_def (a c : Spectrum) :
    a + c = ⟨a.r + c.r, a.g + c.g, a.b + c.b⟩ := rfl

/-- Helper: the zero spectrum. -/
theorem Spectrum.zero_def : (0 : Spectrum) = ⟨0, 0, 0⟩ := rfl

/-- Helper: spectrum-times-scalar is componentwise. -/
theorem Spectrum.hMul_rat_def (s : Spectrum) (x : ℚ) :
    s * x = ⟨s.r * x, s.g * x, s.b * x⟩ := rfl

/-- Helper: scalar-times-spectrum is componentwise. -/
theorem Spectrum.rat_hMul_def (x : ℚ) (s : Spectrum) :
    x * s = ⟨x * s.r, x * s.g, x * s.b⟩ := rfl

/-- Helper: adding the zero spectrum is the identity. -/
theorem spectrum_add_zero (s : Spectrum) : s + (0 : Spectrum) = s := by
  simp [Spectrum.add_def, Spectrum.zero_def]

/-- Helper: spectrum addition is associative. -/
theorem spectrum_add_assoc (a c d : Spectrum) : a + c + d = a + (c + d) := by
  simp only [Spectrum.add_def, Spectrum.mk.injEq]
  refine ⟨by ring, by ring, by ring⟩

/-- Helper: the source's conditional absolute value is invariant under
negating its argument. -/
theorem neg_cond_abs (x : ℚ) :
    (if -x > 0 then -x else - -x) = (if x > 0 then x else -x) := by
  rcases lt_trichotomy x 0 with h | h | h
  · rw [if_pos (by linarith), if_neg (by linarith)]
  · subst h
    norm_num
  · rw [if_neg (by linarith), if_pos h]
    ring

/-- C9: for the conductor and dielectric Fresnel models, Evaluate is invariant
under negating either input cosine: Evaluate(-cosi, coso) = Evaluate(cosi,
coso) = Evaluate(cosi, -coso) for all parameters and cosines. -/
theorem fresnel_evaluate_sign_invariant (fc : FresnelConductor)
    (fd : FresnelDielectric) (cosi coso : ℚ) :
    fc.Evaluate (-cosi) coso = fc.Evaluate cosi coso ∧
    fc.Evaluate cosi (-coso) = fc.Evaluate cosi coso ∧
    fd.Evaluate (-cosi) coso = fd.Evaluate cosi coso ∧
    fd.Evaluate cosi (-coso) = fd.Evaluate cosi coso := by
  refine ⟨?_, rfl, ?_, ?_⟩
  · simp only [FresnelConductor.Evaluate, neg_cond_abs]
  · simp only [FresnelDielectric.Evaluate, neg_cond_abs]
  · simp only [FresnelDielectric.Evaluate, neg_cond_abs]

/-- C10: FresnelConductor::Evaluate depends only on its first argument; the
exitant cosine is ignored entirely. -/
theorem fresnel_conductor_ignores_exitant (fc : FresnelConductor)
    (cosi coso1 coso2 : ℚ) :
    fc.Evaluate cosi coso1 = fc.Evaluate cosi coso2 := rfl

/-- C4: AreaLight::Power returns exactly the spectrum 2π × A × I for surface
area A and constant emitted intensity I (TWO_PI abstracted as the parameter
`twoPi`; Spectrum::GetIntensity modelled from the spec). -/
theorem area_light_power_eq_spec (twoPi : ℚ) (l : AreaLight) :
    l.Power twoPi = specAreaLightPower twoPi l := by
  simp only [AreaLight.Power, specAreaLightPower, Spectrum.GetIntensity,
    Spectrum.hMul_rat_def, Spectrum.rat_hMul_def, Spectrum.mk.injEq]
  refine ⟨by ring, by ring, by ring⟩

/-- C7: Li returns zero radiance for every ray whose depth exceeds the
configured maximum recursive depth, regardless of scene content; the
recursion limit is handled by returning zero, not by raising an error. -/
theorem li_depth_exceeded_returns_zero (maxDepth : Nat) (scene : SceneModel)
    (r : RayModel) (h : r.m_Depth > maxDepth) :
    WhittedRT.Li maxDepth scene r = 0 := by
  unfold WhittedRT.Li
  rw [if_pos h]

/-- Witness for C7: a ray of depth 3 against maximum depth 2, in a scene with
nonzero environment radiance and a live delta light, yields zero. -/
theorem li_depth_exceeded_returns_zero_witness :
    rayC7.m_Depth > 2 ∧ WhittedRT.Li 2 sceneC7 rayC7 = 0 :=
  ⟨by decide, li_depth_exceeded_returns_zero 2 sceneC7 rayC7 (by decide)⟩

/-- Helper: one iteration of the estimator's light loop adds exactly the
claimed per-light contribution to the accumulator. -/
theorem li_step_eq (rdir : Vec3) (ip : HitInfo) (t : Spectrum)
    (light : LightSampleData) :
    (if light.isDelta then
       if light.ld.IsBlack then t
       else
         let f := ip.f (-rdir) light.lightDir
         if f.IsBlack then t
         else if light.visible then
           t + light.ld * f * SatDot light.lightDir ip.normal / light.pdf
         else t
     else t) = t + deltaLightContribution rdir ip light := by
  unfold deltaLightContribution
  cases hdelta : light.isDelta with
  | false => simp [hdelta, spectrum_add_zero]
  | true =>
    cases hb : light.ld.IsBlack with
    | true => simp [hdelta, hb, spectrum_add_zero]
    | false =>
      cases hf : (ip.f (-rdir) light.lightDir).IsBlack with
      | true => simp [hdelta, hb, hf, spectrum_add_zero]
      | false =>
        cases hv : light.visible with
        | false => simp [hdelta, hb, hf, hv, spectrum_add_zero]
        | true => simp [hdelta, hb, hf, hv]

/-- Helper: the estimator's light loop computes the sum of the claimed
per-light contributions, for any starting accumulator. -/
theorem li_foldl_eq (rdir : Vec3) (ip : HitInfo) :
    ∀ (lights : List LightSampleData) (t : Spectrum),
      lights.foldl (fun t light =>
        if light.isDelta then
          if light.ld.IsBlack then t
          else
            let f := ip.f (-rdir) light.lightDir
            if f.IsBlack then t
            else if light.visible then
              t + light.ld * f * SatDot light.lightDir ip.normal / light.pdf
            else t
        else t) t =
      t + spectrumSum (lights.map (deltaLightContribution rdir ip)) := by
  intro lights
  induction lights with
  | nil =>
    intro t
    simp only [List.foldl_nil, List.map_nil, spectrumSum]
    exact (spectrum_add_zero t).symm
  | cons l ls ih =>
    intro t
    simp only [List.foldl_cons, List.map_cons, spectrumSum]
    rw [ih, li_step_eq, spectrum_add_assoc]

/-- C6: for every ray within the recursion limit that hits scene geometry, Li
returns the sum over exactly the delta-distributed lights of radiance ×
reflectance × max(0, cos(incident, normal)) / pdf, each light's term included
only when its sampled radiance is nonzero, the reflectance is nonzero and the
visibility test passes; non-delta (area) lights contribute exactly zero. -/
theorem li_sums_delta_light_contributions (maxDepth : Nat) (scene : SceneModel)
    (r : RayModel) (ip : HitInfo) (hdepth : ¬ r.m_Depth > maxDepth)
    (hhit : scene.hit = some ip) :
    WhittedRT.Li maxDepth scene r =
      spectrumSum (scene.lights.map (deltaLightContribution r.m_Dir ip)) := by
  unfold WhittedRT.Li
  rw [if_neg hdepth, hhit]
  dsimp only
  rw [li_foldl_eq r.m_Dir ip scene.lights 0]
  have h0 : ∀ s : Spectrum, (0 : Spectrum) + s = s := by
    intro s
    simp [Spectrum.add_def, Spectrum.zero_def]
  rw [h0]

/-- Witness for C6: in a scene holding one visible delta light (radiance
(1,1,1), pdf 1/2) and one non-delta area light with nonzero radiance, the
estimate equals the delta light's contribution sum. -/
theorem li_sums_delta_light_contributions_witness :
    ¬ rayC6.m_Depth > 2 ∧ sceneC6.hit = some hitC6 ∧
    WhittedRT.Li 2 sceneC6 rayC6 =
      spectrumSum (sceneC6.lights.map (deltaLightContribution rayC6.m_Dir hitC6)) :=
  ⟨by decide, rfl,
   li_sums_delta_light_contributions 2 sceneC6 rayC6 hitC6 (by decide) rfl⟩

/-- C8: the incident-direction AreaLight::sample_l, when the solid-angle pdf
output is requested and the Shape's sampled pdf is exactly zero, returns zero
radiance and leaves the distance, cosAtLight and emissionPdf outputs and the
visibility-tester ray unwritten, retaining their prior values. -/
theorem sample_l_zero_pdf_short_circuits (l : AreaLight)
    (uniformHemispherePdf : ℚ) (Length : Vec3 → ℚ) (shapeRes : ShapeSampleL)
    (intersectP : Vec3) (wantDistance wantEmissionPdf wantCosAtLight : Bool)
    (outs : SampleLOutputs) (hpdf : shapeRes.pdfW = 0) :
    (l.sample_l uniformHemispherePdf Length shapeRes intersectP wantDistance
        true wantEmissionPdf wantCosAtLight outs).1 = 0 ∧
    (l.sample_l uniformHemispherePdf Length shapeRes intersectP wantDistance
        true wantEmissionPdf wantCosAtLight outs).2.distance = outs.distance ∧
    (l.sample_l uniformHemispherePdf Length shapeRes intersectP wantDistance
        true wantEmissionPdf wantCosAtLight outs).2.cosAtLight = outs.cosAtLight ∧
    (l.sample_l uniformHemispherePdf Length shapeRes intersectP wantDistance
        true wantEmissionPdf wantCosAtLight outs).2.emissionPdf = outs.emissionPdf ∧
    (l.sample_l uniformHemispherePdf Length shapeRes intersectP wantDistance
        true wantEmissionPdf wantCosAtLight outs).2.visRay = outs.visRay := by
  unfold AreaLight.sample_l
  rw [if_pos ⟨rfl, hpdf⟩]
  simp

/-- Witness for C8: with a concrete Shape sample of pdf 0 and distinctive
prior output values, the call returns zero radiance and the distance,
cosAtLight, emissionPdf and visibility-ray slots keep their prior values. -/
theorem sample_l_zero_pdf_short_circuits_witness :
    shapeResC8.pdfW = 0 ∧
    ((areaLightC8.sample_l (1/4) (fun v => v.x + v.y + v.z) shapeResC8
        ⟨0, 0, 0⟩ true true true true priorOutsC8).1 = 0 ∧
     (areaLightC8.sample_l (1/4) (fun v => v.x + v.y + v.z) shapeResC8
        ⟨0, 0, 0⟩ true true true true priorOutsC8).2.distance = priorOutsC8.distance ∧
     (areaLightC8.sample_l (1/4) (fun v => v.x + v.y + v.z) shapeResC8
        ⟨0, 0, 0⟩ true true true true priorOutsC8).2.cosAtLight = priorOutsC8.cosAtLight ∧
     (areaLightC8.sample_l (1/4) (fun v => v.x + v.y + v.z) shapeResC8
        ⟨0, 0, 0⟩ true true true true priorOutsC8).2.emissionPdf = priorOutsC8.emissionPdf ∧
     (areaLightC8.sample_l (1/4) (fun v => v.x + v.y + v.z) shapeResC8
        ⟨0, 0, 0⟩ true true true true priorOutsC8).2.visRay = priorOutsC8.visRay) :=
  ⟨rfl, sample_l_zero_pdf_short_circuits areaLightC8 (1/4)
     (fun v => v.x + v.y + v.z) shapeResC8 ⟨0, 0, 0⟩ true true true
     priorOutsC8 rfl⟩

/-- Helper: a property list holding some BXDF-typed connection fails the
BxdfNode property check. -/
theorem bxdfPropsValid_false_of_any (props : List (Option MaterialNode))
    (h : props.any slotConnectsBxdf = true) : bxdfPropsValid props = false := by
  induction props with
  | nil => simp at h
  | cons c rest ih =>
    simp only [List.any_cons, Bool.or_eq_true] at h
    cases c with
    | none =>
      rcases h with h | h
      · simp [slotConnectsBxdf] at h
      · simpa [bxdfPropsValid] using ih h
    | some n =>
      rcases h with h | h
      · simp only [slotConnectsBxdf] at h
        simp [bxdfPropsValid, h]
      · unfold bxdfPropsValid
        cases hn : (n.getNodeType &&& MAT_NODE_BXDF != 0) with
        | true => rfl
        | false => simpa [hn] using ih h

/-- Helper: a Bxdf slot list holding a non-BXDF connection fails the layered
bxdf-slot check. -/
theorem layeredBxdfSlotsValid_false_of_any (bxdfs : List NodeSlot)
    (h : bxdfs.any (fun s => slotConnectsNonBxdf s.2) = true) :
    layeredBxdfSlotsValid bxdfs = false := by
  induction bxdfs with
  | nil => simp at h
  | cons s rest ih =>
    simp only [List.any_cons, Bool.or_eq_true] at h
    obtain ⟨v, c⟩ := s
    cases c with
    | none =>
      rcases h with h | h
      · simp [slotConnectsNonBxdf] at h
      · simpa [layeredBxdfSlotsValid] using ih h
    | some n =>
      rcases h with h | h
      · simp only [slotConnectsNonBxdf] at h
        simp [layeredBxdfSlotsValid, h]
      · unfold layeredBxdfSlotsValid
        cases hn : (n.getNodeType &&& MAT_NODE_BXDF == 0) with
        | true => rfl
        | false => simpa [hn] using ih h

/-- Helper: a Weight slot list holding a non-CONSTANT connection fails the
layered weight-slot check. -/
theorem layeredWeightSlotsValid_false_of_any (weights : List NodeSlot)
    (h : weights.any (fun s => slotConnectsNonConstant s.2) = true) :
    layeredWeightSlotsValid weights = false := by
  induction weights with
  | nil => simp at h
  | cons s rest ih =>
    simp only [List.any_cons, Bool.or_eq_true] at h
    obtain ⟨v, c⟩ := s
    cases c with
    | none =>
      rcases h with h | h
      · simp [slotConnectsNonConstant] at h
      · simpa [layeredWeightSlotsValid] using ih h
    | some n =>
      rcases h with h | h
      · simp only [slotConnectsNonConstant] at h
        simp [layeredWeightSlotsValid, h]
      · unfold layeredWeightSlotsValid
        cases hn : (n.getNodeType &&& MAT_NODE_CONSTANT == 0) with
        | true => rfl
        | false => simpa [hn] using ih h

/-- C5: CheckValidation returns false whenever a property slot's connected
node violates the node-type acceptance rule — a LayeredBxdfNode with a
non-BXDF node on some Bxdf slot or a non-CONSTANT node on some Weight slot,
or any other BXDF node kind with a BXDF-typed node on one of its property
slots. -/
theorem check_validation_rejects_bad_wiring (n : MaterialNode)
    (h : violatesSlotRule n = true) : n.CheckValidation = false := by
  cases n with
  | constant v => simp [violatesSlotRule] at h
  | generic ty props => simp [violatesSlotRule] at h
  | lambert baseColor =>
    unfold violatesSlotRule at h
    unfold MaterialNode.CheckValidation
    rw [bxdfPropsValid_false_of_any [baseColor.2] (by simpa using h)]
    rfl
  | orenNayar baseColor roughness =>
    unfold violatesSlotRule at h
    unfold MaterialNode.CheckValidation
    rw [bxdfPropsValid_false_of_any [baseColor.2, roughness.2] (by
      rcases Bool.or_eq_true_iff.mp h with h1 | h1 <;> simp [h1])]
    rfl
  | merl merlfile mb pp =>
    unfold violatesSlotRule at h
    unfold MaterialNode.CheckValidation
    rw [bxdfPropsValid_false_of_any [merlfile.2] (by simpa using h)]
    rfl
  | fourier file fb pp =>
    unfold violatesSlotRule at h
    unfold MaterialNode.CheckValidation
    rw [bxdfPropsValid_false_of_any [file.2] (by simpa using h)]
    rfl
  | layered bxdfs weights =>
    unfold violatesSlotRule at h
    unfold MaterialNode.CheckValidation
    rcases Bool.or_eq_true_iff.mp h with h1 | h1
    · rw [layeredBxdfSlotsValid_false_of_any bxdfs h1]
      rfl
    · rw [layeredWeightSlotsValid_false_of_any weights h1]
      simp

/-- Witness for C5: a LayeredBxdfNode whose first Bxdf slot connects a
CONSTANT (non-BXDF) node both violates the acceptance rule and fails
CheckValidation. -/
theorem check_validation_rejects_bad_wiring_witness :
    violatesSlotRule violatingNodeC5 = true ∧
    violatingNodeC5.CheckValidation = false :=
  ⟨by decide, check_validation_rejects_bad_wiring violatingNodeC5 (by decide)⟩

/-- Helper: componentwise spectrum multiplication. -/
theorem Spectrum.mul_def (a c : Spectrum) :
    a * c = ⟨a.r * c.r, a.g * c.g, a.b * c.b⟩ := rfl

/-- C1 (code evaluated at the failing input): a LayeredBxdfNode with one
populated (Lambertian sub-node, weight) pair whose weight slot resolves to
w = (1/2,1/2,1/2), called with top-level weight W = (2,2,2), appends exactly
one reflectance term — but its weight is w, not the W × w the claim requires:
LayeredBxdfNode::UpdateBSDF never reads its incoming weight parameter. -/
theorem layered_update_ignores_incoming_weight :
    (layeredNodeC1.UpdateBSDF ⟨[]⟩ topWeightC1).2.bxdfs =
      [⟨.lambertBxdf ⟨1, 1, 1⟩, subWeightC1, .fresh⟩] ∧
    subWeightC1 ≠ topWeightC1 * subWeightC1 := by
  constructor
  · simp [layeredNodeC1, MaterialNode.UpdateBSDF, layeredUpdateLoop,
      slotUpdateBsdf, getPropertyValue, MaterialNode.GetNodeValue,
      MaterialPropertyValue.ToSpectrum, Bsdf.AddBxdf, lambertNodeC1,
      weightNodeC1, subWeightC1, zeroMPV]
  · simp only [Spectrum.mul_def, subWeightC1, topWeightC1, ne_eq,
      Spectrum.mk.injEq, not_and]
    norm_num

/-- C2 (code evaluated at the failing input): MerlNode::UpdateBSDF and
FourierBxdfNode::UpdateBSDF change the node-owned measured BXDF's weight and
append that node-owned object to the Bsdf, contradicting the claim that node
state is left unchanged and that the appended term is freshly constructed and
does not alias node-owned storage. -/
theorem merl_update_mutates_node_state :
    (merlNodeC2.UpdateBSDF ⟨[]⟩ ⟨1, 1, 1⟩).1.ownedBxdfWeight ≠
      merlNodeC2.ownedBxdfWeight ∧
    (merlNodeC2.UpdateBSDF ⟨[]⟩ ⟨1, 1, 1⟩).2.bxdfs.map BsdfEntry.storage =
      [.nodeOwned] ∧
    (fourierNodeC2.UpdateBSDF ⟨[]⟩ ⟨1, 1, 1⟩).1.ownedBxdfWeight ≠
      fourierNodeC2.ownedBxdfWeight ∧
    (fourierNodeC2.UpdateBSDF ⟨[]⟩ ⟨1, 1, 1⟩).2.bxdfs.map BsdfEntry.storage =
      [.nodeOwned] := by
  refine ⟨?_, ?_, ?_, ?_⟩
  · simp only [merlNodeC2, MaterialNode.UpdateBSDF, MaterialNode.ownedBxdfWeight]
    intro hcon
    rw [Spectrum.zero_def] at hcon
    have := congrArg Spectrum.r hcon
    norm_num at this
  · simp [merlNodeC2, MaterialNode.UpdateBSDF, Bsdf.AddBxdf]
  · simp only [fourierNodeC2, MaterialNode.UpdateBSDF, MaterialNode.ownedBxdfWeight]
    intro hcon
    rw [Spectrum.zero_def] at hcon
    have := congrArg Spectrum.r hcon
    norm_num at this
  · simp [fourierNodeC2, MaterialNode.UpdateBSDF, Bsdf.AddBxdf]

/-- C3 (code evaluated at the failing input): with a non-empty filename and
the processed flag false, MerlNode::PostProcess and
FourierBxdfNode::PostProcess load the file from disk on the first call, still
report the flag false afterwards (neither function ever sets it), and
therefore load again on the second call: calling PostProcess twice performs
two disk loads, not one. -/
theorem post_process_repeat_reloads :
    merlNodeC3.PostProcess.2 = ["brdf.bin"] ∧
    (postProcessTwice merlNodeC3).2 = ["brdf.bin", "brdf.bin"] ∧
    merlNodeC3.PostProcess.1.postProcessedFlag = false ∧
    fourierNodeC3.PostProcess.2 = ["fourier.bsdf"] ∧
    (postProcessTwice fourierNodeC3).2 = ["fourier.bsdf", "fourier.bsdf"] := by
  refine ⟨?_, ?_, ?_, ?_, ?_⟩ <;>
    simp [merlNodeC3, fourierNodeC3, MaterialNode.PostProcess, postProcessTwice,
      MaterialNode.postProcessedFlag]
